import Mathlib

/-!
Shallow embedding of the SignalWire call-mediation subsystem:
the Call Log Store upserts (`logCallStatus`, `callStatusUpdate`,
`handleVoiceStatusCallback`), the webhook event handler
(`incomingCallNotification`) with its directory lookups, and the
attended-transfer orchestration (`attendedTransfer`).

Conventions of the embedding:
- optional webhook fields are `Option String`; a missing key is `none`,
  a key delivered with an empty value is `some ""`;
- JavaScript truthiness on such a field (`if (x)`) is `truthy`;
  the `x || null` coercions applied before binding SQL parameters are
  `orNullS` / `orNullN`;
- the database clock `NOW()` (and `new Date().toISOString()`) is an
  explicit `now : String` parameter;
- a table is a list of rows; the single-statement `INSERT ... ON CONFLICT`
  upserts become pure functions on that list;
- a store that is unreachable is modelled by an availability flag in the
  environment; a failed query surfaces as an error value, exactly where
  the source lets the exception propagate.
-/

namespace SW

/-- Charwise lowercasing, as JavaScript toLowerCase acts on the ASCII
strings involved here (defined charwise so it evaluates on literals). -/
def lowerCase (s : String) : String := ⟨s.data.map Char.toLower⟩

/-- JavaScript truthiness of an optional string field: a missing key,
a null value and the empty string are all falsy. -/
def truthy : Option String → Bool
  | none => false
  | some s => s != ""

/-- JavaScript `x || null` on an optional string: the empty string
collapses to null. -/
def orNullS : Option String → Option String
  | none => none
  | some s => if s == "" then none else some s

/-- JavaScript `x || null` on an optional number: 0 collapses to null. -/
def orNullN : Option Nat → Option Nat
  | none => none
  | some n => if n == 0 then none else some n

/-- One row of the `call_logs` table. Column types follow the statements in
the source: `call_sid` is the conflict key, every other data column is
nullable, and `timestamp` always receives a value on insert. -/
structure CallLogRow where
  call_sid : String
  call_status : Option String
  direction : Option String
  from_number : Option String
  to_number : Option String
  call_duration : Option Nat
  recording_url : Option String
  participant_sid : Option String
  conference_sid : Option String
  timestamp : String
deriving Repr, DecidableEq

/-- Row update performed by the `ON CONFLICT (call_sid) DO UPDATE` clause of
`logCallStatus`: `call_status`, `call_duration`, `participant_sid`,
`conference_sid` and `timestamp` are always overwritten; the
`recording_url` assignment is spliced into the statement text only when the
`recordingUrl` argument is truthy. `direction`, `from_number` and
`to_number` are not in the SET list. -/
def logCallStatusUpd (now callStatus : String) (callDuration : Option Nat)
    (recordingUrl participantSid conferenceSid : Option String)
    (r : CallLogRow) : CallLogRow :=
  { r with
    call_status := some callStatus
    call_duration := orNullN callDuration
    participant_sid := orNullS participantSid
    conference_sid := orNullS conferenceSid
    timestamp := now
    recording_url :=
      if truthy recordingUrl then orNullS recordingUrl else r.recording_url }

/-- Row inserted by `logCallStatus` on first sight of a `call_sid`: the
bound values after their `|| null` coercions, with `timestamp = NOW()`. -/
def logCallStatusIns (now callSid callStatus direction fromNumber toNumber : String)
    (callDuration : Option Nat)
    (recordingUrl participantSid conferenceSid : Option String) : CallLogRow :=
  { call_sid := callSid
    call_status := some callStatus
    direction := some direction
    from_number := some fromNumber
    to_number := some toNumber
    call_duration := orNullN callDuration
    recording_url := orNullS recordingUrl
    participant_sid := orNullS participantSid
    conference_sid := orNullS conferenceSid
    timestamp := now }

/-- Shape shared by both `INSERT ... ON CONFLICT (call_sid) DO UPDATE`
statements: when a row with the key exists it is rewritten by the conflict
update, otherwise the fresh row is appended. -/
def upsert (db : List CallLogRow) (callSid : String)
    (u : CallLogRow → CallLogRow) (i : CallLogRow) : List CallLogRow :=
  if db.any (fun r => r.call_sid == callSid) then
    db.map (fun r => if r.call_sid == callSid then u r else r)
  else
    db ++ [i]

/-- The `logCallStatus` upsert (identical in the `SignalWireService` class of
the unnamed source file and in the .ts service): a single
`INSERT ... ON CONFLICT (call_sid) DO UPDATE` statement. The method also
emits one `outbound-call-status` bus message after the write succeeds; that
emission is modelled at the call site in `incomingCallNotification`. -/
def logCallStatus (db : List CallLogRow)
    (now callSid callStatus direction fromNumber toNumber : String)
    (callDuration : Option Nat)
    (recordingUrl participantSid conferenceSid : Option String) :
    List CallLogRow :=
  upsert db callSid
    (logCallStatusUpd now callStatus callDuration recordingUrl
      participantSid conferenceSid)
    (logCallStatusIns now callSid callStatus direction fromNumber
      toNumber callDuration recordingUrl participantSid conferenceSid)

/-- Payload of the LaML-bin call-status webhook consumed by
`callStatusUpdate`. All fields are optional key/value entries. -/
structure StatusPayload where
  CallSid : Option String := none
  CallStatus : Option String := none
  Timestamp : Option String := none
  Direction : Option String := none
  From : Option String := none
  To : Option String := none
  CallDuration : Option String := none
  RecordingUrl : Option String := none
deriving Repr, DecidableEq

/-- Timestamp bound by `callStatusUpdate`: `Timestamp || new Date().toISOString()`. -/
def statusTimestamp (now : String) (p : StatusPayload) : String :=
  if truthy p.Timestamp then p.Timestamp.getD "" else now

/-- Call duration bound by `callStatusUpdate`:
`CallDuration ? parseInt(CallDuration, 10) : null` (a non-numeric string,
which parseInt turns into NaN, is modelled as null). -/
def statusDuration (p : StatusPayload) : Option Nat :=
  if truthy p.CallDuration then (p.CallDuration.getD "").toNat? else none

/-- Row update performed by the `ON CONFLICT (call_sid) DO UPDATE` clause of
`callStatusUpdate`: it unconditionally overwrites `call_status`,
`timestamp`, `call_duration` and `recording_url` with the bound values
(a missing `RecordingUrl` is bound as null); `direction`, `from_number`
and `to_number` are not in the SET list, and `participant_sid` /
`conference_sid` appear nowhere in the statement. -/
def statusUpd (now : String) (p : StatusPayload) (r : CallLogRow) : CallLogRow :=
  { r with
    call_status := p.CallStatus
    timestamp := statusTimestamp now p
    call_duration := statusDuration p
    recording_url := p.RecordingUrl }

/-- Row inserted by `callStatusUpdate` on first sight of a `call_sid`. -/
def statusIns (now : String) (p : StatusPayload) : CallLogRow :=
  { call_sid := p.CallSid.getD ""
    call_status := p.CallStatus
    direction := p.Direction
    from_number := p.From
    to_number := p.To
    call_duration := statusDuration p
    recording_url := p.RecordingUrl
    participant_sid := none
    conference_sid := none
    timestamp := statusTimestamp now p }

/-- The `callStatusUpdate` upsert of the .ts service: a single
`INSERT ... ON CONFLICT (call_sid) DO UPDATE` statement over the bound
values. A missing `CallSid` is modelled as the empty key. -/
def callStatusUpdate (db : List CallLogRow) (now : String)
    (p : StatusPayload) : List CallLogRow :=
  upsert db (p.CallSid.getD "") (statusUpd now p) (statusIns now p)

/-! The webhook event handler `incomingCallNotification` and its
directory lookups. -/

/-- The raw webhook payload delivered to the incoming-call endpoint
(`incomingCallNotificationRequest`): an unordered set of optional
key/value fields. -/
structure Payload where
  StatusCallbackEvent : Option String := none
  CallStatus : Option String := none
  CallSid : Option String := none
  ConferenceSid : Option String := none
  From : Option String := none
  To : Option String := none
  Timestamp : Option String := none
  ReasonConferenceEnded : Option String := none
  CallSidEndingConference : Option String := none
deriving Repr, DecidableEq

/-- One row of the `public.did_numbers` directory table, as selected by
`findUserByPhoneNumber` (`phone_number`, `status`, `assigned_user`). -/
structure DidRow where
  phone_number : String
  status : String
  assigned_user : String
deriving Repr, DecidableEq

/-- One row of the `public.ring_groups` directory table, as selected by
`findRingGroupByPhoneNumber` (`phone_number`, `ring_group`, `display_name`). -/
structure RingGroupRow where
  phone_number : String
  ring_group : String
  display_name : String
deriving Repr, DecidableEq

/-- One row of the `app.combined_leads` table, as selected by
`findLeadByPhoneNumber`; only the key matters to the handler. -/
structure LeadRow where
  id : Nat
  cell_phone : String
deriving Repr, DecidableEq

/-- Participant details returned by the provider fetch
`signalWireClient.calls(CallSid).fetch()`; the handler reads `sid`,
`status`, `from` and `to` (the latter two are named `fromNumber` and
`toNumber` here). -/
structure CallInfo where
  sid : String
  status : String
  fromNumber : String
  toNumber : String
deriving Repr, DecidableEq

/-- Environment of a handler run: the provider fetch, the three directory
tables with their reachability flags, and the reachability of the call-log
store. A false flag means the corresponding store query raises. -/
structure Env where
  fetchCall : String → CallInfo
  didStoreUp : Bool
  ringStoreUp : Bool
  leadStoreUp : Bool
  callLogStoreUp : Bool
  didNumbers : List DidRow
  ringGroups : List RingGroupRow
  leads : List LeadRow

/-- The `findUserByPhoneNumber` lookup: a single-row `LIMIT 1` select on
`public.did_numbers`; a query failure is caught and rethrown, so it
surfaces as an error, never as a null row. -/
def findUserByPhoneNumber (env : Env) (phoneNumber : String) :
    Except String (Option DidRow) :=
  if env.didStoreUp then
    .ok (env.didNumbers.find? (fun r => r.phone_number == phoneNumber))
  else
    .error "Failed to find user by phone number"

/-- The `findRingGroupByPhoneNumber` lookup: a single-row `LIMIT 1` select
on `public.ring_groups`; it has no catch block, so a query failure
propagates raw. -/
def findRingGroupByPhoneNumber (env : Env) (phoneNumber : String) :
    Except String (Option RingGroupRow) :=
  if env.ringStoreUp then
    .ok (env.ringGroups.find? (fun r => r.phone_number == phoneNumber))
  else
    .error "ring group store unavailable"

/-- The `findLeadByPhoneNumber` lookup: a single-row `LIMIT 1` select on
`app.combined_leads`; no catch block, a query failure propagates raw. -/
def findLeadByPhoneNumber (env : Env) (phoneNumber : String) :
    Except String (Option LeadRow) :=
  if env.leadStoreUp then
    .ok (env.leads.find? (fun r => r.cell_phone == phoneNumber))
  else
    .error "lead store unavailable"

/-- The guard `user && user.status.toLowerCase() === "assigned"` applied to
the result of the assigned-user lookup: the row when it resolves routing,
`none` when the row is missing or its status is not "assigned". -/
def assignedOf : Option DidRow → Option DidRow
  | some u => if lowerCase u.status == "assigned" then some u else none
  | none => none

/-- Outcome of one `incomingCallNotification` run: the bus channels
emitted in order, the directory lookups attempted in order (tagged
"lead", "user", "ringGroup"), the call-log table after the run, and
whether the outer catch block caught and rethrew an error. -/
structure NotifResult where
  emits : List String
  lookups : List String
  db : List CallLogRow
  errored : Bool
deriving Repr, DecidableEq

/-- The ring-group fallback of the participant-join branch: attempted only
from the else-branch of the assigned-user guard; a found row emits on
`ring-group-notification`, a missing row falls back to `incoming-call`,
and a store failure propagates to the outer catch. -/
def ringGroupFallback (env : Env) (emitsSoFar lookupsSoFar : List String)
    (db : List CallLogRow) (toNumber : String) : NotifResult :=
  match findRingGroupByPhoneNumber env toNumber with
  | .error _ => ⟨emitsSoFar, lookupsSoFar ++ ["ringGroup"], db, true⟩
  | .ok (some _) =>
      ⟨emitsSoFar ++ ["ring-group-notification"],
        lookupsSoFar ++ ["ringGroup"], db, false⟩
  | .ok none =>
      ⟨emitsSoFar ++ ["incoming-call"],
        lookupsSoFar ++ ["ringGroup"], db, false⟩

/-- The webhook handler `incomingCallNotification` of the unnamed source
file. Branching follows the source exactly: JavaScript truthiness on
`StatusCallbackEvent` first, then a switch on its value; otherwise
truthiness on `CallStatus` with the terminal value "completed" suppressed;
otherwise a logged no-op. The participant-join branch fetches the
participant, upserts via `logCallStatus` (whose success emits one
`outbound-call-status` message), then runs the lead, assigned-user and
ring-group lookups in precedence order. Any raised store error reaches the
outer catch, which rethrows; emissions that happened before the raise
remain on the bus. -/
def incomingCallNotification (env : Env) (db : List CallLogRow)
    (now : String) (input : Payload) : NotifResult :=
  if truthy input.StatusCallbackEvent then
    if input.StatusCallbackEvent.getD "" == "participant-join" then
      let pr := env.fetchCall (input.CallSid.getD "")
      if env.callLogStoreUp then
        let db1 := logCallStatus db now pr.sid pr.status "inbound"
          pr.fromNumber pr.toNumber none none none input.ConferenceSid
        match findLeadByPhoneNumber env pr.fromNumber with
        | .error _ => ⟨["outbound-call-status"], ["lead"], db1, true⟩
        | .ok _ =>
          match findUserByPhoneNumber env pr.toNumber with
          | .error _ =>
              ⟨["outbound-call-status"], ["lead", "user"], db1, true⟩
          | .ok userRow =>
            match assignedOf userRow with
            | some u =>
                ⟨["outbound-call-status",
                   "user-notification-" ++ u.assigned_user],
                  ["lead", "user"], db1, false⟩
            | none =>
                ringGroupFallback env ["outbound-call-status"]
                  ["lead", "user"] db1 pr.toNumber
      else ⟨[], [], db, true⟩
    else if input.StatusCallbackEvent.getD "" == "participant-leave" then
      ⟨["participant-leave"], [], db, false⟩
    else if input.StatusCallbackEvent.getD "" == "conference-end" then
      ⟨["conference-end"], [], db, false⟩
    else ⟨[], [], db, false⟩
  else if truthy input.CallStatus then
    if input.CallStatus.getD "" != "completed" then
      match findUserByPhoneNumber env (input.To.getD "") with
      | .error _ => ⟨[], ["user"], db, true⟩
      | .ok userRow =>
        match assignedOf userRow with
        | some u => ⟨["user-call-status-" ++ u.assigned_user], ["user"], db, false⟩
        | none => ⟨["call-status-update"], ["user"], db, false⟩
    else ⟨[], [], db, false⟩
  else ⟨[], [], db, false⟩

/-! The attended-transfer orchestration of the controller. -/

/-- One call-control action successfully performed against the provider
during a transfer: participant hold flag set, outbound consultation call
dialed, or an existing call redirected to a conference connect URL
(`addParticipantToConference` passes only the call sid and the URL). -/
inductive CCCmd where
  | setHold : String → String → Bool → CCCmd
  | dialOut : String → String → String → CCCmd
  | addToConference : String → String → CCCmd
deriving Repr, DecidableEq

/-- Failure injection for the four provider calls of an attended transfer,
plus the call sid the provider returns for the consultation dial. A failing
step performs no state change and raises, which the step wrappers rethrow. -/
structure CCEnv where
  holdFails : Bool
  dialFails : Bool
  bridgeFails : Bool
  unholdFails : Bool
  dialSid : String
deriving Repr, DecidableEq

/-- The constant the controller hardcodes for the bridge step:
`const LAML_BIN_URL_FOR_CONFERENCE = "https://your-laml-bin.com/whatever"`. -/
def LAML_BIN_URL_FOR_CONFERENCE : String := "https://your-laml-bin.com/whatever"

/-- Outcome of one `attendedTransfer` request: the call-control actions
that completed, in order, and the HTTP response (`ok` iff status 200). -/
structure TransferResult where
  trace : List CCCmd
  ok : Bool
  status : Nat
deriving Repr, DecidableEq

/-- The controller operation `attendedTransfer`. It validates that all five
body fields are truthy (non-empty), then runs hold, consultation dial,
bridge and unhold strictly in sequence inside a single try/catch whose
handler only logs and responds 500: no step failure triggers any
compensating call-control action. The bridge step always passes
`LAML_BIN_URL_FOR_CONFERENCE` as the connect URL and the sid returned by
the consultation dial. -/
def attendedTransfer (env : CCEnv)
    (conferenceSid originalCallSid consultFrom consultTo consultUrl : String) :
    TransferResult :=
  if conferenceSid = "" ∨ originalCallSid = "" ∨ consultFrom = "" ∨
      consultTo = "" ∨ consultUrl = "" then
    { trace := [], ok := false, status := 400 }
  else if env.holdFails then
    { trace := [], ok := false, status := 500 }
  else if env.dialFails then
    { trace := [CCCmd.setHold conferenceSid originalCallSid true],
      ok := false, status := 500 }
  else if env.bridgeFails then
    { trace := [CCCmd.setHold conferenceSid originalCallSid true,
                CCCmd.dialOut consultFrom consultTo consultUrl],
      ok := false, status := 500 }
  else if env.unholdFails then
    { trace := [CCCmd.setHold conferenceSid originalCallSid true,
                CCCmd.dialOut consultFrom consultTo consultUrl,
                CCCmd.addToConference env.dialSid LAML_BIN_URL_FOR_CONFERENCE],
      ok := false, status := 500 }
  else
    { trace := [CCCmd.setHold conferenceSid originalCallSid true,
                CCCmd.dialOut consultFrom consultTo consultUrl,
                CCCmd.addToConference env.dialSid LAML_BIN_URL_FOR_CONFERENCE,
                CCCmd.setHold conferenceSid originalCallSid false],
      ok := true, status := 200 }

/-- Hold flag of a participant after a sequence of call-control actions:
the value of the last `setHold` addressed to that conference/call pair,
initially false. -/
def holdStateAfter (trace : List CCCmd) (conferenceSid callSid : String) : Bool :=
  trace.foldl (fun h c =>
    match c with
    | CCCmd.setHold cs sid b =>
        if cs == conferenceSid && sid == callSid then b else h
    | _ => h) false

/-! The voice-status-callback handler `handleVoiceStatusCallback`. -/

/-- Payload of the voice status callback (`VoiceStatusCallback`): `CallSid`
is required for call-scoped events, the rest are optional fields. -/
structure VoicePayload where
  CallSid : String
  CallStatus : Option String := none
  From : Option String := none
  To : Option String := none
  CallDuration : Option String := none
  RecordingUrl : Option String := none
  participantSid : Option String := none
deriving Repr, DecidableEq

/-- Number of distinct parameter placeholders referenced by the text of the
UPDATE statement in `handleVoiceStatusCallback`: `$1` call_status,
`$2` call_duration, `$3` recording_url, `$4` participant_sid,
`$5` recording_Url, and `$6` call_sid in the WHERE clause. -/
def voiceUpdatePlaceholderCount : Nat := 6

/-- The parameter values the source actually supplies to that UPDATE:
`[CallStatus, CallDuration, participantSid, CallSid]` — four values for six
placeholders (`From`/`To`/`RecordingUrl` are never bound). -/
def voiceUpdateParams (p : VoicePayload) : List (Option String) :=
  [p.CallStatus, p.CallDuration, p.participantSid, some p.CallSid]

/-- Row inserted by the insert branch of `handleVoiceStatusCallback`:
columns (call_sid, call_status, from_number, to_number, call_duration,
recording_url, participant_sid, timestamp = NOW()); `direction` and
`conference_sid` are absent from the column list and stored as null.
`CallDuration` is bound raw; the column coercion of a non-numeric string
is modelled as null. -/
def voiceInsRow (now : String) (p : VoicePayload) : CallLogRow :=
  { call_sid := p.CallSid
    call_status := p.CallStatus
    direction := none
    from_number := p.From
    to_number := p.To
    call_duration := p.CallDuration.bind String.toNat?
    recording_url := p.RecordingUrl
    participant_sid := p.participantSid
    conference_sid := none
    timestamp := now }

/-- The `handleVoiceStatusCallback` handler of the .ts service: it selects
the existing row for `CallSid` and branches. The update branch executes an
UPDATE whose text references six placeholders while only four values are
supplied (the bind is rejected with no row written), and whose SET list
also lacks a comma between the `recording_Url = $5` and
`timestamp = NOW()` assignments — so the update branch always raises and
leaves the table unchanged. Only the insert branch (first sight of a
`CallSid`) can succeed. The result pairs the table after the run with the
raised error, if any. -/
def handleVoiceStatusCallback (db : List CallLogRow) (now : String)
    (p : VoicePayload) : List CallLogRow × Option String :=
  if db.any (fun r => r.call_sid == p.CallSid) then
    if voiceUpdatePlaceholderCount ≤ (voiceUpdateParams p).length then
      (db, some "malformed SET list in UPDATE statement")
    else
      (db, some "bind supplies 4 parameters but statement requires 6")
  else
    (db ++ [voiceInsRow now p], none)

/-! Sample data used by witnesses and counterexamples. -/

/-- Sample participant details returned by the provider fetch. -/
def sampleCallInfo : CallInfo :=
  ⟨"CA100", "ringing", "+15551112222", "+15553334444"⟩

/-- Sample assigned-user directory row for the sample callee number. -/
def sampleDid : DidRow := ⟨"+15553334444", "Assigned", "jdoe"⟩

/-- Sample ring-group directory row for the sample callee number. -/
def sampleRing : RingGroupRow := ⟨"+15553334444", "sales", "Sales Team"⟩

/-- Baseline environment: every store reachable, all directories empty,
the provider fetch returning the sample participant. -/
def envBase : Env :=
  { fetchCall := fun _ => sampleCallInfo
    didStoreUp := true
    ringStoreUp := true
    leadStoreUp := true
    callLogStoreUp := true
    didNumbers := []
    ringGroups := []
    leads := [] }

/-- Sample participant-join webhook payload. -/
def joinPayload : Payload :=
  { StatusCallbackEvent := some "participant-join"
    CallSid := some "CA100"
    ConferenceSid := some "CF1" }

/-- Sample stored row holding a non-null recording URL, as left by an
earlier recording event for call sid CA1. -/
def sampleStoredRow : CallLogRow :=
  { call_sid := "CA1"
    call_status := some "in-progress"
    direction := some "inbound"
    from_number := some "+15551112222"
    to_number := some "+15553334444"
    call_duration := none
    recording_url := some "https://recordings.example/CA1.wav"
    participant_sid := none
    conference_sid := none
    timestamp := "t1" }

/-!  Helper lemmas about the upsert combinators. -/

theorem logCallStatusUpd_call_sid (now callStatus : String)
    (callDuration : Option Nat)
    (recordingUrl participantSid conferenceSid : Option String)
    (r : CallLogRow) :
    (logCallStatusUpd now callStatus callDuration recordingUrl participantSid
      conferenceSid r).call_sid = r.call_sid := rfl

theorem statusUpd_call_sid (now : String) (p : StatusPayload) (r : CallLogRow) :
    (statusUpd now p r).call_sid = r.call_sid := rfl

/-- Mapping a keyed row update over a table with no matching key leaves the
table unchanged. -/
theorem map_guard_id (db : List CallLogRow) (callSid : String)
    (f : CallLogRow → CallLogRow)
    (h : db.any (fun r => r.call_sid == callSid) = false) :
    db.map (fun r => if r.call_sid == callSid then f r else r) = db := by
  induction db with
  | nil => rfl
  | cons a t ih =>
      simp only [List.any_cons, Bool.or_eq_false_iff] at h
      simp only [List.map_cons, h.1, ih h.2]
      simp

/-- Mapping a keyed row update that preserves the key does not change which
keys the table contains. -/
theorem any_key_map_guard (db : List CallLogRow) (callSid : String)
    (f : CallLogRow → CallLogRow) (hf : ∀ r, (f r).call_sid = r.call_sid) :
    ((db.map (fun r => if r.call_sid == callSid then f r else r)).any
      (fun r => r.call_sid == callSid))
      = db.any (fun r => r.call_sid == callSid) := by
  induction db with
  | nil => rfl
  | cons a t ih =>
      by_cases h : (a.call_sid == callSid) = true
      · simp only [List.map_cons, List.any_cons, if_pos h, hf a, ih]
      · simp only [List.map_cons, List.any_cons, if_neg h, ih]

/-- Applying the conflict update of `logCallStatus` twice, at two clock
readings, equals applying it once at the second reading. -/
theorem logCallStatusUpd_upd (t1 t2 callStatus : String)
    (callDuration : Option Nat)
    (recordingUrl participantSid conferenceSid : Option String)
    (r : CallLogRow) :
    logCallStatusUpd t2 callStatus callDuration recordingUrl participantSid
        conferenceSid
        (logCallStatusUpd t1 callStatus callDuration recordingUrl
          participantSid conferenceSid r)
      = logCallStatusUpd t2 callStatus callDuration recordingUrl
          participantSid conferenceSid r := by
  cases hru : truthy recordingUrl <;> simp [logCallStatusUpd, hru]

/-- The conflict update of `logCallStatus` applied to the row its insert
branch just wrote equals inserting at the later clock reading. -/
theorem logCallStatusUpd_ins (t1 t2 callSid callStatus direction fromNumber
    toNumber : String) (callDuration : Option Nat)
    (recordingUrl participantSid conferenceSid : Option String) :
    logCallStatusUpd t2 callStatus callDuration recordingUrl participantSid
        conferenceSid
        (logCallStatusIns t1 callSid callStatus direction fromNumber toNumber
          callDuration recordingUrl participantSid conferenceSid)
      = logCallStatusIns t2 callSid callStatus direction fromNumber toNumber
          callDuration recordingUrl participantSid conferenceSid := by
  cases hru : truthy recordingUrl <;>
    simp [logCallStatusUpd, logCallStatusIns, hru]

/-- Applying the conflict update of `callStatusUpdate` twice, at two clock
readings, equals applying it once at the second reading. -/
theorem statusUpd_upd (now1 now2 : String) (p : StatusPayload)
    (r : CallLogRow) :
    statusUpd now2 p (statusUpd now1 p r) = statusUpd now2 p r := by
  simp [statusUpd]

/-- The conflict update of `callStatusUpdate` applied to the row its insert
branch just wrote equals inserting at the later clock reading. -/
theorem statusUpd_ins (now1 now2 : String) (p : StatusPayload) :
    statusUpd now2 p (statusIns now1 p) = statusIns now2 p := by
  simp [statusUpd, statusIns]

/-- Chaining two keyed upserts collapses to the second one whenever the
second conflict update absorbs the first write. -/
theorem upsert_twice (db : List CallLogRow) (callSid : String)
    (u1 u2 : CallLogRow → CallLogRow) (i1 i2 : CallLogRow)
    (hu1 : ∀ r, (u1 r).call_sid = r.call_sid)
    (hi1 : i1.call_sid = callSid)
    (huu : ∀ r, u2 (u1 r) = u2 r)
    (hui : u2 i1 = i2) :
    upsert (upsert db callSid u1 i1) callSid u2 i2
      = upsert db callSid u2 i2 := by
  by_cases hex : (db.any fun r => r.call_sid == callSid) = true
  · have e1 : upsert db callSid u1 i1
        = db.map (fun r => if r.call_sid == callSid then u1 r else r) := by
      unfold upsert; rw [if_pos hex]
    have e2 : ((db.map (fun r => if r.call_sid == callSid then u1 r else r)).any
        fun r => r.call_sid == callSid) = true := by
      rw [any_key_map_guard db callSid u1 hu1]; exact hex
    rw [e1]
    unfold upsert
    rw [if_pos e2, if_pos hex, List.map_map]
    congr 1
    funext r
    by_cases h : (r.call_sid == callSid) = true
    · show (if ((if r.call_sid == callSid then u1 r else r).call_sid == callSid) = true
          then u2 (if r.call_sid == callSid then u1 r else r)
          else (if r.call_sid == callSid then u1 r else r))
        = if r.call_sid == callSid then u2 r else r
      rw [if_pos h, if_pos h, hu1 r, if_pos h, huu r]
    · show (if ((if r.call_sid == callSid then u1 r else r).call_sid == callSid) = true
          then u2 (if r.call_sid == callSid then u1 r else r)
          else (if r.call_sid == callSid then u1 r else r))
        = if r.call_sid == callSid then u2 r else r
      rw [if_neg h, if_neg h]
  · have hex' : (db.any fun r => r.call_sid == callSid) = false :=
      Bool.eq_false_iff.mpr (fun hc => hex hc)
    have e1 : upsert db callSid u1 i1 = db ++ [i1] := by
      unfold upsert; rw [if_neg hex]
    have e2 : ((db ++ [i1]).any fun r => r.call_sid == callSid) = true := by
      simp [List.any_append, hi1]
    rw [e1]
    unfold upsert
    rw [if_pos e2, if_neg hex, List.map_append]
    rw [map_guard_id db callSid u2 hex']
    have e3 : ([i1].map fun r => if r.call_sid == callSid then u2 r else r)
        = [i2] := by
      simp [hi1, hui]
    rw [e3]

/-- C2, counterexample: the `callStatusUpdate` upsert path null-clobbers a
stored recording URL. Starting from a row for call sid CA1 whose
`recording_url` is non-null, an update payload carrying only `CallSid` and
`CallStatus` (no `RecordingUrl`) leaves the row with `recording_url` null. -/
theorem callStatusUpdate_clobbers_recording_url :
    (([sampleStoredRow].map fun r => r.recording_url)
        = [some "https://recordings.example/CA1.wav"])
    ∧ (((callStatusUpdate [sampleStoredRow] "t2"
          { CallSid := some "CA1", CallStatus := some "completed" }).map
        fun r => r.recording_url) = [none]) := by decide

/-- C2, amended: on the `logCallStatus` upsert path the merge invariant
holds — an update whose `recordingUrl` argument is not truthy never changes
any stored `recording_url`; `direction`, `from_number` and `to_number` are
never changed on conflict; and the matching row gets exactly `call_status`,
`call_duration`, `participant_sid`, `conference_sid` and `timestamp`
overwritten with the bound values. (The `callStatusUpdate` path instead
overwrites `recording_url` unconditionally, per the counterexample.) -/
theorem logCallStatus_merge_invariant
    (db : List CallLogRow)
    (now callSid callStatus direction fromNumber toNumber : String)
    (callDuration : Option Nat)
    (recordingUrl participantSid conferenceSid : Option String)
    (hru : truthy recordingUrl = false)
    (hex : (db.any fun r => r.call_sid == callSid) = true) :
    ((logCallStatus db now callSid callStatus direction fromNumber toNumber
        callDuration recordingUrl participantSid conferenceSid).map
        (fun r => r.recording_url) = db.map fun r => r.recording_url)
    ∧ ((logCallStatus db now callSid callStatus direction fromNumber toNumber
        callDuration recordingUrl participantSid conferenceSid).map
        (fun r => r.direction) = db.map fun r => r.direction)
    ∧ ((logCallStatus db now callSid callStatus direction fromNumber toNumber
        callDuration recordingUrl participantSid conferenceSid).map
        (fun r => r.from_number) = db.map fun r => r.from_number)
    ∧ ((logCallStatus db now callSid callStatus direction fromNumber toNumber
        callDuration recordingUrl participantSid conferenceSid).map
        (fun r => r.to_number) = db.map fun r => r.to_number)
    ∧ (∀ r ∈ logCallStatus db now callSid callStatus direction fromNumber
        toNumber callDuration recordingUrl participantSid conferenceSid,
        r.call_sid = callSid →
          r.call_status = some callStatus
          ∧ r.call_duration = orNullN callDuration
          ∧ r.participant_sid = orNullS participantSid
          ∧ r.conference_sid = orNullS conferenceSid
          ∧ r.timestamp = now) := by
  have e1 : logCallStatus db now callSid callStatus direction fromNumber
      toNumber callDuration recordingUrl participantSid conferenceSid
      = db.map (fun r =>
          if r.call_sid == callSid then
            logCallStatusUpd now callStatus callDuration recordingUrl
              participantSid conferenceSid r
          else r) := by
    unfold logCallStatus upsert; rw [if_pos hex]
  refine ⟨?_, ?_, ?_, ?_, ?_⟩
  · rw [e1, List.map_map]
    congr 1
    funext r
    by_cases h : (r.call_sid == callSid) = true
    · simp [Function.comp, h, logCallStatusUpd, hru]
    · simp [Function.comp, h]
  · rw [e1, List.map_map]
    congr 1
    funext r
    by_cases h : (r.call_sid == callSid) = true
    · simp [Function.comp, h, logCallStatusUpd]
    · simp [Function.comp, h]
  · rw [e1, List.map_map]
    congr 1
    funext r
    by_cases h : (r.call_sid == callSid) = true
    · simp [Function.comp, h, logCallStatusUpd]
    · simp [Function.comp, h]
  · rw [e1, List.map_map]
    congr 1
    funext r
    by_cases h : (r.call_sid == callSid) = true
    · simp [Function.comp, h, logCallStatusUpd]
    · simp [Function.comp, h]
  · rw [e1]
    intro r hr hsid
    obtain ⟨a, ha, heq⟩ := List.mem_map.mp hr
    by_cases h : (a.call_sid == callSid) = true
    · simp only [if_pos h] at heq
      subst heq
      simp [logCallStatusUpd]
    · simp only [if_neg h] at heq
      subst heq
      exact absurd (by simp [hsid]) h

/-- C2, witness: instantiating the merge-invariant theorem on a stored row
with a non-null recording URL and an update that carries no recording URL:
the `recording_url` column is unchanged. -/
theorem logCallStatus_merge_invariant_witness :
    ((logCallStatus [sampleStoredRow] "t2" "CA1" "completed" "inbound"
        "+15551112222" "+15553334444" none none none none).map
        (fun r => r.recording_url)
      = [sampleStoredRow].map fun r => r.recording_url) :=
  (logCallStatus_merge_invariant [sampleStoredRow] "t2" "CA1" "completed"
    "inbound" "+15551112222" "+15553334444" none none none none
    (by decide) (by decide)).1

/-- C3, counterexample: the Call Log Store upsert is not idempotent in the
`timestamp` column. Applying the same `logCallStatus` payload twice, at
clock readings t1 then t2, yields a row differing (in `timestamp`) from the
row obtained by applying it once at t1. -/
theorem logCallStatus_not_timestamp_idempotent :
    logCallStatus (logCallStatus [] "t1" "CA1" "ringing" "inbound"
        "+15551112222" "+15553334444" none none none none) "t2" "CA1"
        "ringing" "inbound" "+15551112222" "+15553334444" none none none none
      ≠ logCallStatus [] "t1" "CA1" "ringing" "inbound" "+15551112222"
        "+15553334444" none none none none := by decide

/-- C3, amended: both Call Log Store upsert paths are idempotent up to the
clock — applying the same payload twice, at clock readings t1 then t2,
yields exactly the table produced by applying it once at t2; in particular
a retried delivery at the same clock reading is a no-op, and the two tables
agree in every column except `timestamp`. -/
theorem upsert_idempotent_up_to_clock
    (db : List CallLogRow)
    (t1 t2 callSid callStatus direction fromNumber toNumber : String)
    (callDuration : Option Nat)
    (recordingUrl participantSid conferenceSid : Option String)
    (now1 now2 : String) (p : StatusPayload) :
    (logCallStatus (logCallStatus db t1 callSid callStatus direction
        fromNumber toNumber callDuration recordingUrl participantSid
        conferenceSid) t2 callSid callStatus direction fromNumber toNumber
        callDuration recordingUrl participantSid conferenceSid
      = logCallStatus db t2 callSid callStatus direction fromNumber toNumber
          callDuration recordingUrl participantSid conferenceSid)
    ∧ (callStatusUpdate (callStatusUpdate db now1 p) now2 p
      = callStatusUpdate db now2 p) := by
  constructor
  · exact upsert_twice db callSid
      (logCallStatusUpd t1 callStatus callDuration recordingUrl
        participantSid conferenceSid)
      (logCallStatusUpd t2 callStatus callDuration recordingUrl
        participantSid conferenceSid)
      (logCallStatusIns t1 callSid callStatus direction fromNumber toNumber
        callDuration recordingUrl participantSid conferenceSid)
      (logCallStatusIns t2 callSid callStatus direction fromNumber toNumber
        callDuration recordingUrl participantSid conferenceSid)
      (fun _ => rfl) rfl
      (logCallStatusUpd_upd t1 t2 callStatus callDuration recordingUrl
        participantSid conferenceSid)
      (logCallStatusUpd_ins t1 t2 callSid callStatus direction fromNumber
        toNumber callDuration recordingUrl participantSid conferenceSid)
  · exact upsert_twice db (p.CallSid.getD "")
      (statusUpd now1 p) (statusUpd now2 p)
      (statusIns now1 p) (statusIns now2 p)
      (fun _ => rfl) rfl
      (statusUpd_upd now1 now2 p)
      (statusUpd_ins now1 now2 p)

/-- C1, counterexample: an attended transfer in which the hold step
succeeds and the consultation dial fails surfaces the error (HTTP 500,
not ok) while the original participant is still on hold — the orchestrator
issues no compensating resume before reporting failure. -/
theorem attendedTransfer_no_dial_compensation :
    ((attendedTransfer ⟨false, true, false, false, "CA200"⟩ "CF1" "CA1"
        "+15550001111" "+15550002222" "https://consult.example").ok = false)
    ∧ (holdStateAfter
        (attendedTransfer ⟨false, true, false, false, "CA200"⟩ "CF1" "CA1"
          "+15550001111" "+15550002222" "https://consult.example").trace
        "CF1" "CA1" = true) := by decide

/-- C1, amended: for every attendedTransfer invocation in which the
consultation dial fails after the original participant was successfully
placed on hold, the error is surfaced to the caller (HTTP 500) with no
compensating action: the trace contains no unhold (every hold command
issued sets the flag true) and the end state of the original participant is
on-hold. -/
theorem attendedTransfer_dial_failure_leaves_on_hold
    (env : CCEnv)
    (conferenceSid originalCallSid consultFrom consultTo consultUrl : String)
    (hc : conferenceSid ≠ "") (ho : originalCallSid ≠ "")
    (hf : consultFrom ≠ "") (ht : consultTo ≠ "") (hu : consultUrl ≠ "")
    (hhold : env.holdFails = false) (hdial : env.dialFails = true) :
    ((attendedTransfer env conferenceSid originalCallSid consultFrom
        consultTo consultUrl).ok = false)
    ∧ ((attendedTransfer env conferenceSid originalCallSid consultFrom
        consultTo consultUrl).status = 500)
    ∧ (holdStateAfter (attendedTransfer env conferenceSid originalCallSid
        consultFrom consultTo consultUrl).trace conferenceSid originalCallSid
        = true)
    ∧ (∀ cs sid b, CCCmd.setHold cs sid b ∈ (attendedTransfer env
        conferenceSid originalCallSid consultFrom consultTo
        consultUrl).trace → b = true) := by
  have e : attendedTransfer env conferenceSid originalCallSid consultFrom
      consultTo consultUrl
      = { trace := [CCCmd.setHold conferenceSid originalCallSid true],
          ok := false, status := 500 } := by
    unfold attendedTransfer
    rw [if_neg (by simp [hc, ho, hf, ht, hu]), if_neg (by simp [hhold]),
      if_pos (by simp [hdial])]
  rw [e]
  refine ⟨rfl, rfl, by simp [holdStateAfter], ?_⟩
  intro cs sid b hb
  simp only [List.mem_singleton, CCCmd.setHold.injEq] at hb
  exact hb.2.2

/-- C1, witness: the amended statement instantiated on a concrete failing
dial: the response is 500 and the original participant ends on hold. -/
theorem attendedTransfer_dial_failure_witness :
    ((attendedTransfer ⟨false, true, false, false, "CA201"⟩ "CF9" "CA9"
        "+15550003333" "+15550004444" "https://consult9.example").status
        = 500)
    ∧ (holdStateAfter
        (attendedTransfer ⟨false, true, false, false, "CA201"⟩ "CF9" "CA9"
          "+15550003333" "+15550004444" "https://consult9.example").trace
        "CF9" "CA9" = true) := by
  have h := attendedTransfer_dial_failure_leaves_on_hold
    ⟨false, true, false, false, "CA201"⟩ "CF9" "CA9" "+15550003333"
    "+15550004444" "https://consult9.example"
    (by decide) (by decide) (by decide) (by decide) (by decide) rfl rfl
  exact ⟨h.2.1, h.2.2.1⟩

/-- C9 (confirmed): every conference-attach action issued by an attended
transfer carries the hardcoded constant `LAML_BIN_URL_FOR_CONFERENCE` as
its connect URL, for every environment and all five request inputs — in
particular the caller-supplied consultUrl never influences the bridge
step. -/
theorem attendedTransfer_bridge_url_constant
    (env : CCEnv)
    (conferenceSid originalCallSid consultFrom consultTo consultUrl : String)
    (sid url : String)
    (h : CCCmd.addToConference sid url ∈ (attendedTransfer env conferenceSid
        originalCallSid consultFrom consultTo consultUrl).trace) :
    url = LAML_BIN_URL_FOR_CONFERENCE := by
  unfold attendedTransfer at h
  split_ifs at h <;> simp_all

/-- C9, witness: a fully successful transfer issues a conference-attach
whose URL is the constant. -/
theorem attendedTransfer_bridge_url_constant_witness :
    "https://your-laml-bin.com/whatever" = LAML_BIN_URL_FOR_CONFERENCE :=
  attendedTransfer_bridge_url_constant ⟨false, false, false, false, "CA300"⟩
    "CF2" "CA1" "+15550001111" "+15550002222" "https://consult.example"
    "CA300" "https://your-laml-bin.com/whatever" (by decide)

/-- C7 (confirmed): a webhook payload with `StatusCallbackEvent` absent and
`CallStatus` equal to the terminal value "completed" dispatches nothing:
the handler emits on no channel, attempts no directory lookup, leaves the
call-log table unchanged and does not error. -/
theorem completed_status_suppressed
    (env : Env) (db : List CallLogRow) (now : String) (input : Payload)
    (hsce : input.StatusCallbackEvent = none)
    (hcs : input.CallStatus = some "completed") :
    incomingCallNotification env db now input = ⟨[], [], db, false⟩ := by
  simp [incomingCallNotification, hsce, hcs, truthy]

/-- C7, witness: the suppression theorem instantiated on a concrete
completed-status payload against the baseline environment. -/
theorem completed_status_suppressed_witness :
    incomingCallNotification envBase [] "t0"
      { CallStatus := some "completed" } = ⟨[], [], [], false⟩ :=
  completed_status_suppressed envBase [] "t0"
    { CallStatus := some "completed" } rfl rfl

/-- C10 (confirmed): a voice-status-callback payload whose `CallSid`
already has a row makes `handleVoiceStatusCallback` raise and leave the
table unchanged — its UPDATE binds fewer values than the statement
references placeholders — and in general a run succeeds exactly when the
`CallSid` had no row yet (only the insert path can succeed). -/
theorem handleVoiceStatusCallback_update_always_fails
    (db : List CallLogRow) (now : String) (p : VoicePayload)
    (hex : (db.any fun r => r.call_sid == p.CallSid) = true) :
    ((handleVoiceStatusCallback db now p).1 = db)
    ∧ ((handleVoiceStatusCallback db now p).2.isSome = true)
    ∧ ((voiceUpdateParams p).length < voiceUpdatePlaceholderCount)
    ∧ (∀ db2 now2 p2, (handleVoiceStatusCallback db2 now2 p2).2 = none →
        (db2.any fun r => r.call_sid == p2.CallSid) = false) := by
  refine ⟨?_, ?_, ?_, ?_⟩
  · simp [handleVoiceStatusCallback, hex, voiceUpdateParams,
      voiceUpdatePlaceholderCount]
  · simp [handleVoiceStatusCallback, hex, voiceUpdateParams,
      voiceUpdatePlaceholderCount]
  · simp [voiceUpdateParams, voiceUpdatePlaceholderCount]
  · intro db2 now2 p2 hnone
    by_cases hex2 : (db2.any fun r => r.call_sid == p2.CallSid) = true
    · exfalso
      unfold handleVoiceStatusCallback at hnone
      rw [if_pos hex2] at hnone
      split_ifs at hnone
    · exact Bool.eq_false_iff.mpr (fun hcc => hex2 hcc)

/-- C10, witness: re-delivering a callback for a CallSid inserted by a
first delivery errors and leaves the single stored row unchanged. -/
theorem handleVoiceStatusCallback_update_fails_witness :
    ((handleVoiceStatusCallback [voiceInsRow "t0" { CallSid := "CA9" }] "t1"
        { CallSid := "CA9" }).1 = [voiceInsRow "t0" { CallSid := "CA9" }])
    ∧ ((handleVoiceStatusCallback [voiceInsRow "t0" { CallSid := "CA9" }]
        "t1" { CallSid := "CA9" }).2.isSome = true) := by
  have h := handleVoiceStatusCallback_update_always_fails
    [voiceInsRow "t0" { CallSid := "CA9" }] "t1" { CallSid := "CA9" }
    (by decide)
  exact ⟨h.1, h.2.1⟩

/-- C8 (confirmed): a directory-store failure during a join or status-update
event makes the handler error out (the raised store error reaches the outer
catch and is rethrown) and is never swallowed into an Unassigned routing
decision: no message is published on the `incoming-call` or
`call-status-update` fallback channels. Covers the assigned-user store
being down on the join path, the ring-group store being down when the
assigned-user lookup did not resolve on the join path, and the
assigned-user store being down on the status-update path. -/
theorem store_error_not_swallowed
    (env : Env) (db : List CallLogRow) (now : String) (input : Payload) :
    (input.StatusCallbackEvent = some "participant-join" →
      env.didStoreUp = false →
        ((incomingCallNotification env db now input).errored = true
        ∧ "incoming-call" ∉ (incomingCallNotification env db now input).emits
        ∧ "call-status-update" ∉
            (incomingCallNotification env db now input).emits))
    ∧ (input.StatusCallbackEvent = some "participant-join" →
      env.ringStoreUp = false →
      assignedOf (env.didNumbers.find? fun r => r.phone_number ==
          (env.fetchCall (input.CallSid.getD "")).toNumber) = none →
        ((incomingCallNotification env db now input).errored = true
        ∧ "incoming-call" ∉ (incomingCallNotification env db now input).emits
        ∧ "call-status-update" ∉
            (incomingCallNotification env db now input).emits))
    ∧ (truthy input.StatusCallbackEvent = false →
      truthy input.CallStatus = true →
      input.CallStatus.getD "" ≠ "completed" →
      env.didStoreUp = false →
        ((incomingCallNotification env db now input).errored = true
        ∧ (incomingCallNotification env db now input).emits = [])) := by
  have htj : truthy (some "participant-join") = true := by decide
  refine ⟨?_, ?_, ?_⟩
  · intro hsce hdid
    simp only [incomingCallNotification, ringGroupFallback,
      findLeadByPhoneNumber, findUserByPhoneNumber,
      findRingGroupByPhoneNumber, hsce, hdid]
    split_ifs <;> simp_all [htj]
  · intro hsce hring hass
    simp only [incomingCallNotification, ringGroupFallback,
      findLeadByPhoneNumber, findUserByPhoneNumber,
      findRingGroupByPhoneNumber, hsce, hring]
    split_ifs <;> simp_all [htj, hass]
  · intro hsf hcs hne hdid
    simp only [incomingCallNotification, findUserByPhoneNumber, hsf, hdid]
    split_ifs <;> simp_all

/-- C8, witness: with the assigned-user store unreachable, a join event
errors out and nothing is published on the `incoming-call` fallback. -/
theorem store_error_not_swallowed_witness :
    ((incomingCallNotification { envBase with didStoreUp := false } [] "t0"
        joinPayload).errored = true)
    ∧ ("incoming-call" ∉ (incomingCallNotification
        { envBase with didStoreUp := false } [] "t0" joinPayload).emits) := by
  have h := (store_error_not_swallowed { envBase with didStoreUp := false }
    [] "t0" joinPayload).1 rfl rfl
  exact ⟨h.1, h.2.1⟩

/-- No string can extend the user-notification channel prefix into the
ring-group channel name: the two channel families are disjoint. -/
theorem user_channel_ne (s : String) :
    "ring-group-notification" ≠ "user-notification-" ++ s := by
  intro h
  have h2 := congrArg String.data h
  rw [String.data_append] at h2
  have h3 := congrArg List.head? h2
  rw [List.head?_append_of_ne_nil _ (by decide)] at h3
  revert h3
  decide

/-- In every handler run, the ring-group lookup is attempted only after the
assigned-user lookup returned successfully without resolving (row missing
or status not "assigned"). -/
theorem ringGroup_lookup_only_if_unresolved
    (env2 : Env) (db2 : List CallLogRow) (now2 : String) (input2 : Payload)
    (hmem : "ringGroup" ∈
      (incomingCallNotification env2 db2 now2 input2).lookups) :
    ∃ found, findUserByPhoneNumber env2
        (env2.fetchCall (input2.CallSid.getD "")).toNumber = .ok found
      ∧ assignedOf found = none := by
  simp only [incomingCallNotification, ringGroupFallback] at hmem
  by_cases h1 : truthy input2.StatusCallbackEvent = true
  case neg =>
    rw [if_neg h1] at hmem
    by_cases h6 : truthy input2.CallStatus = true
    case neg =>
      rw [if_neg h6] at hmem
      simp at hmem
    case pos =>
      rw [if_pos h6] at hmem
      by_cases h7 : (input2.CallStatus.getD "" != "completed") = true
      case neg =>
        rw [if_neg h7] at hmem
        simp at hmem
      case pos =>
        rw [if_pos h7] at hmem
        cases hu : findUserByPhoneNumber env2 (input2.To.getD "") with
        | error e =>
            rw [hu] at hmem
            simp at hmem
        | ok found =>
            rw [hu] at hmem
            simp at hmem
            cases ha : assignedOf found with
            | some u =>
                rw [ha] at hmem
                simp at hmem
            | none =>
                rw [ha] at hmem
                simp at hmem
  case pos =>
    rw [if_pos h1] at hmem
    by_cases h2 : (input2.StatusCallbackEvent.getD ""
        == "participant-join") = true
    case neg =>
      rw [if_neg h2] at hmem
      by_cases h3 : (input2.StatusCallbackEvent.getD ""
          == "participant-leave") = true
      · rw [if_pos h3] at hmem
        simp at hmem
      · rw [if_neg h3] at hmem
        by_cases h4 : (input2.StatusCallbackEvent.getD ""
            == "conference-end") = true
        · rw [if_pos h4] at hmem
          simp at hmem
        · rw [if_neg h4] at hmem
          simp at hmem
    case pos =>
      rw [if_pos h2] at hmem
      by_cases h3 : env2.callLogStoreUp = true
      case neg =>
        rw [if_neg h3] at hmem
        simp at hmem
      case pos =>
        rw [if_pos h3] at hmem
        cases hl : findLeadByPhoneNumber env2
            (env2.fetchCall (input2.CallSid.getD "")).fromNumber with
        | error e =>
            rw [hl] at hmem
            simp at hmem
        | ok lead =>
            rw [hl] at hmem
            simp at hmem
            cases hu : findUserByPhoneNumber env2
                (env2.fetchCall (input2.CallSid.getD "")).toNumber with
            | error e =>
                rw [hu] at hmem
                simp at hmem
            | ok found =>
                rw [hu] at hmem
                simp at hmem
                cases ha : assignedOf found with
                | some u =>
                    rw [ha] at hmem
                    simp at hmem
                | none => exact ⟨found, rfl, ha⟩

/-- C4 (confirmed): on a join event whose callee number matches both an
assigned-user row with status "assigned" (case-insensitively) and a
ring-group row, routing resolves to the assigned user: the handler
publishes on the user-notification channel, never on
`ring-group-notification`, and the ring-group lookup is not even attempted;
moreover, in every run whatsoever, the ring-group lookup is attempted only
when the assigned-user lookup returned without resolving. -/
theorem routing_prefers_assigned_user
    (env : Env) (db : List CallLogRow) (now : String) (input : Payload)
    (user : DidRow) (g : RingGroupRow)
    (hsce : input.StatusCallbackEvent = some "participant-join")
    (hlog : env.callLogStoreUp = true)
    (hlead : env.leadStoreUp = true)
    (hdid : env.didStoreUp = true)
    (huser : env.didNumbers.find? (fun r => r.phone_number ==
        (env.fetchCall (input.CallSid.getD "")).toNumber) = some user)
    (hass : lowerCase user.status = "assigned")
    (hring : env.ringGroups.find? (fun r => r.phone_number ==
        (env.fetchCall (input.CallSid.getD "")).toNumber) = some g) :
    ((incomingCallNotification env db now input).emits
        = ["outbound-call-status",
            "user-notification-" ++ user.assigned_user])
    ∧ ("ring-group-notification" ∉
        (incomingCallNotification env db now input).emits)
    ∧ ("ringGroup" ∉ (incomingCallNotification env db now input).lookups)
    ∧ (∀ env2 db2 now2 input2,
        "ringGroup" ∈ (incomingCallNotification env2 db2 now2 input2).lookups →
        ∃ found, findUserByPhoneNumber env2
            (env2.fetchCall (input2.CallSid.getD "")).toNumber = .ok found
          ∧ assignedOf found = none) := by
  have htj : truthy (some "participant-join") = true := by decide
  have e : (incomingCallNotification env db now input).emits
        = ["outbound-call-status",
            "user-notification-" ++ user.assigned_user]
      ∧ (incomingCallNotification env db now input).lookups
        = ["lead", "user"] := by
    simp [incomingCallNotification, findLeadByPhoneNumber,
      findUserByPhoneNumber, assignedOf, hsce, htj, hlog, hlead, hdid, huser,
      hass]
  refine ⟨e.1, ?_, ?_, ?_⟩
  · rw [e.1]
    intro hmem
    rcases List.mem_cons.mp hmem with h | h
    · revert h
      decide
    · rcases List.mem_cons.mp h with h2 | h2
      · exact user_channel_ne user.assigned_user h2
      · simp at h2
  · rw [e.2]
    decide
  · exact fun env2 db2 now2 input2 hmem2 =>
      ringGroup_lookup_only_if_unresolved env2 db2 now2 input2 hmem2

/-- C4, witness: the precedence theorem instantiated on the sample
directory, where the callee number matches both the assigned-user row and a
ring-group row: the user channel is chosen. -/
theorem routing_prefers_assigned_user_witness :
    (incomingCallNotification
        { envBase with didNumbers := [sampleDid], ringGroups := [sampleRing] }
        [] "t0" joinPayload).emits
      = ["outbound-call-status",
          "user-notification-" ++ sampleDid.assigned_user] :=
  (routing_prefers_assigned_user
    { envBase with didNumbers := [sampleDid], ringGroups := [sampleRing] }
    [] "t0" joinPayload sampleDid sampleRing rfl rfl rfl rfl
    (by decide) (by decide) (by decide)).1

/-- C5, counterexample: a payload whose `StatusCallbackEvent` key is present
with the empty value while `CallStatus` is "ringing" is classified through
the `CallStatus` branch (it publishes on `call-status-update`, which only
that branch does), so classification is not decided by the present
discriminator alone. -/
theorem classifier_empty_discriminator_counterexample :
    (({ StatusCallbackEvent := some "", CallStatus := some "ringing" }
        : Payload).StatusCallbackEvent.isSome = true)
    ∧ ((incomingCallNotification envBase [] "t0"
        { StatusCallbackEvent := some "", CallStatus := some "ringing" }).emits
      = ["call-status-update"]) := by decide

/-- C5, amended: whenever `StatusCallbackEvent` is present with a non-empty
(truthy) value, classification is decided by it alone: a
"conference-end" value yields exactly the conference-end broadcast
regardless of any `CallStatus` also present, and the whole handler result
is invariant under changing the `CallStatus` field. -/
theorem classifier_discriminator_decides
    (env : Env) (db : List CallLogRow) (now : String) (input : Payload)
    (h : truthy input.StatusCallbackEvent = true) :
    (input.StatusCallbackEvent = some "conference-end" →
      incomingCallNotification env db now input
        = ⟨["conference-end"], [], db, false⟩)
    ∧ (∀ cs, incomingCallNotification env db now
        { input with CallStatus := cs }
        = incomingCallNotification env db now input) := by
  constructor
  · intro hce
    simp [incomingCallNotification, hce, truthy]
  · intro cs
    cases input with
    | mk sce cs0 csid conf fr toF ts rce csec =>
        dsimp only at h ⊢
        simp [incomingCallNotification, h]

/-- C5, witness: a conference-end payload also carrying a `CallStatus`
classifies as conference-end. -/
theorem classifier_discriminator_decides_witness :
    incomingCallNotification envBase [] "t0"
      { StatusCallbackEvent := some "conference-end",
        CallStatus := some "ringing" }
      = ⟨["conference-end"], [], [], false⟩ :=
  (classifier_discriminator_decides envBase [] "t0"
    { StatusCallbackEvent := some "conference-end",
      CallStatus := some "ringing" } (by decide)).1 rfl

/-- C6, counterexample: a successfully handled join event publishes two
messages, not one — `outbound-call-status` from the call-log step plus one
routing notification. -/
theorem join_event_publishes_two_messages :
    ((incomingCallNotification envBase [] "t0" joinPayload).errored = false)
    ∧ ((incomingCallNotification envBase [] "t0" joinPayload).emits
        = ["outbound-call-status", "incoming-call"])
    ∧ ((incomingCallNotification envBase [] "t0" joinPayload).emits.length
        ≠ 1) := by decide

/-- C6, amended: with every store reachable, a join event publishes exactly
two messages (the first being `outbound-call-status`, the second the single
routing notification), leave and conference-end events publish exactly one,
and a non-terminal status event publishes exactly one. -/
theorem dispatch_publish_counts
    (env : Env) (db : List CallLogRow) (now : String) (input : Payload)
    (hlog : env.callLogStoreUp = true) (hlead : env.leadStoreUp = true)
    (hdid : env.didStoreUp = true) (hring : env.ringStoreUp = true) :
    (input.StatusCallbackEvent = some "participant-join" →
      ((incomingCallNotification env db now input).emits.length = 2
      ∧ (incomingCallNotification env db now input).emits.head?
          = some "outbound-call-status"))
    ∧ (input.StatusCallbackEvent = some "participant-leave" →
      (incomingCallNotification env db now input).emits
        = ["participant-leave"])
    ∧ (input.StatusCallbackEvent = some "conference-end" →
      (incomingCallNotification env db now input).emits = ["conference-end"])
    ∧ (truthy input.StatusCallbackEvent = false →
      truthy input.CallStatus = true →
      input.CallStatus.getD "" ≠ "completed" →
      (incomingCallNotification env db now input).emits.length = 1) := by
  refine ⟨?_, ?_, ?_, ?_⟩
  · intro hsce
    simp only [incomingCallNotification, ringGroupFallback,
      findLeadByPhoneNumber, findUserByPhoneNumber,
      findRingGroupByPhoneNumber, hsce, hlog, hlead, hdid, hring]
    cases hA : assignedOf (env.didNumbers.find? fun r => r.phone_number ==
        (env.fetchCall (input.CallSid.getD "")).toNumber) with
    | some u => simp [truthy, hA]
    | none =>
        cases hR : env.ringGroups.find? (fun r => r.phone_number ==
            (env.fetchCall (input.CallSid.getD "")).toNumber) with
        | some gr => simp [truthy, hA, hR]
        | none => simp [truthy, hA, hR]
  · intro hsce
    simp [incomingCallNotification, hsce, truthy]
  · intro hsce
    simp [incomingCallNotification, hsce, truthy]
  · intro h1 h2 h3
    have hb : (input.CallStatus.getD "" != "completed") = true :=
      bne_iff_ne.mpr h3
    simp only [incomingCallNotification, findUserByPhoneNumber, h1, h2, hb,
      hdid]
    cases hA : assignedOf (env.didNumbers.find? fun r => r.phone_number ==
        input.To.getD "") with
    | some u => simp [hA]
    | none => simp [hA]

/-- C6, witness: the publish-count theorem instantiated on a concrete join
event against the baseline environment. -/
theorem dispatch_publish_counts_witness :
    ((incomingCallNotification envBase [] "t0" joinPayload).emits.length = 2)
    ∧ ((incomingCallNotification envBase [] "t0" joinPayload).emits.head?
        = some "outbound-call-status") :=
  (dispatch_publish_counts envBase [] "t0" joinPayload rfl rfl rfl rfl).1 rfl

end SW
